import Mathlib

/-!
# Verification of the IntelliSignal dashboard

Shallow embedding of the IntelliSignal/DevSignal repository: the Express
proxy endpoints (`src/backend/index.js`), the dashboard market-mood
classifier (`src/frontend/src/components/Dashboard.jsx`), the toy price
predictor (`StockChart`), and the GitHub/GitLab profile-card fetch logic
with its demo-data fallback.  Numbers are modelled as exact rationals,
JSON payloads as an inductive `Json` value, and each request handler as a
pure function from the upstream outcome to the HTTP response it sends.
-/

namespace IntelliSignal

/-- JSON values exchanged with the upstream APIs and sent in responses. -/
inductive Json : Type
  | null : Json
  | bool (b : Bool) : Json
  | num (q : ℚ) : Json
  | str (s : String) : Json
  | arr (elems : List Json) : Json
  | obj (fields : List (String × Json)) : Json

/-- An HTTP response produced by an Express handler: `res.status(n).json(body)`
    (`res.json body` alone sends status 200). -/
structure HttpResponse where
  status : Nat
  body : Json

/-- Whether a JSON object body carries a top-level field with the given key. -/
def Json.hasKey : Json → String → Bool
  | .obj fields, key => fields.any (fun kv => kv.1 == key)
  | _, _ => false

/-! ## Backend proxy handlers (src/backend/index.js)

Each handler is a function of the upstream request's outcome: `.ok payload`
when axios resolves with parsed JSON, `.error msg` when it rejects
(network error, timeout, or upstream non-2xx status — axios rejects on all
of these).  Endpoints whose upstream payload is a JSON array are typed with
`List Json` for the element list. -/

/-- GET /api/github/user/:username — relays the upstream GitHub user object. -/
def githubUserHandler (upstream : Except String Json) : HttpResponse :=
  match upstream with
  | .ok data => ⟨200, data⟩
  | .error msg =>
      ⟨500, .obj [("message", .str "Error fetching GitHub user data"),
                  ("error", .str msg)]⟩

/-- GET /api/github/user/:username/repos — relays the upstream repo list.
    The source sends `response.data || []`; an array is always truthy in JS,
    so on success the body is the upstream array itself. -/
def githubReposHandler (upstream : Except String (List Json)) : HttpResponse :=
  match upstream with
  | .ok data => ⟨200, .arr data⟩
  | .error msg =>
      ⟨500, .obj [("message", .str "Error fetching GitHub repositories"),
                  ("error", .str msg)]⟩

/-- GET /api/github/repos/:owner/:repo/commits — relays the commit list. -/
def githubCommitsHandler (upstream : Except String (List Json)) : HttpResponse :=
  match upstream with
  | .ok data => ⟨200, .arr data⟩
  | .error msg =>
      ⟨500, .obj [("message", .str "Error fetching GitHub commits"),
                  ("error", .str msg)]⟩

/-- GET /api/gitlab/user/:username — the upstream lookup returns a user list;
    the handler sends the FIRST match only, or 404 on an empty list. -/
def gitlabUserHandler (username : String)
    (upstream : Except String (List Json)) : HttpResponse :=
  match upstream with
  | .ok (first :: _) => ⟨200, first⟩
  | .ok [] =>
      ⟨404, .obj [("message", .str ("GitLab user \"" ++ username ++ "\" not found")),
                  ("error", .str "User not found")]⟩
  | .error msg =>
      ⟨500, .obj [("message", .str "Error fetching GitLab user data"),
                  ("error", .str msg)]⟩

/-- GET /api/gitlab/projects/:userid — relays the project list. -/
def gitlabProjectsHandler (upstream : Except String (List Json)) : HttpResponse :=
  match upstream with
  | .ok data => ⟨200, .arr data⟩
  | .error msg =>
      ⟨500, .obj [("message", .str "Error fetching GitLab projects"),
                  ("error", .str msg)]⟩

/-- GET /api/gitlab/projects/:projectId/commits — relays the commit list. -/
def gitlabCommitsHandler (upstream : Except String (List Json)) : HttpResponse :=
  match upstream with
  | .ok data => ⟨200, .arr data⟩
  | .error msg =>
      ⟨500, .obj [("message", .str "Error fetching GitLab commits"),
                  ("error", .str msg)]⟩

/-- GET /api/gitlab/search/:username — composite: user lookup, then (only if a
    user was found) the project list for that user's id.  The returned Bool
    records whether the dependent projects request was issued (the code line
    `axios.get(.../users/user.id/projects...)` is reached). -/
def gitlabSearchHandler (username : String)
    (userUpstream : Except String (List Json))
    (projectsUpstream : Except String (List Json)) : HttpResponse × Bool :=
  match userUpstream with
  | .error msg =>
      (⟨500, .obj [("message", .str "Error searching GitLab user"),
                   ("error", .str msg),
                   ("suggestion", .str "The GitLab API might be temporarily unavailable")]⟩,
       false)
  | .ok [] =>
      (⟨404, .obj [("message", .str ("GitLab user \"" ++ username ++ "\" not found")),
                   ("suggestion", .str "Check the username or try a different GitLab username")]⟩,
       false)
  | .ok (user :: _) =>
      match projectsUpstream with
      | .ok pdata =>
          (⟨200, .obj [("user", user),
                       ("projects", .arr pdata),
                       ("success", .bool true)]⟩,
           true)
      | .error msg =>
          (⟨500, .obj [("message", .str "Error searching GitLab user"),
                       ("error", .str msg),
                       ("suggestion", .str "The GitLab API might be temporarily unavailable")]⟩,
           true)

/-! ## Outbound request configurations (src/backend/index.js)

The axios config object passed with each of the eight outbound upstream
requests: its `timeout` option and its `headers` object. -/

/-- The axios options object of one outbound request. -/
structure RequestConfig where
  timeout : Option Nat
  headers : List (String × String)
  deriving DecidableEq

def githubUserRequest : RequestConfig :=
  ⟨some 10000, [("Accept", "application/json"), ("User-Agent", "IntelliSignal-Dashboard")]⟩

def githubReposRequest : RequestConfig :=
  ⟨some 10000, [("Accept", "application/json"), ("User-Agent", "IntelliSignal-Dashboard")]⟩

def githubCommitsRequest : RequestConfig :=
  ⟨some 10000, [("Accept", "application/json"), ("User-Agent", "IntelliSignal-Dashboard")]⟩

def gitlabUserRequest : RequestConfig :=
  ⟨some 10000, [("Accept", "application/json")]⟩

def gitlabProjectsRequest : RequestConfig :=
  ⟨some 10000, [("Accept", "application/json")]⟩

def gitlabCommitsRequest : RequestConfig :=
  ⟨some 10000, [("Accept", "application/json")]⟩

/-- The user-lookup request inside /api/gitlab/search — only `timeout` set. -/
def gitlabSearchUserRequest : RequestConfig := ⟨some 10000, []⟩

/-- The projects request inside /api/gitlab/search — only `timeout` set. -/
def gitlabSearchProjectsRequest : RequestConfig := ⟨some 10000, []⟩

/-- Every outbound upstream request the backend can issue. -/
def backendRequests : List RequestConfig :=
  [githubUserRequest, githubReposRequest, githubCommitsRequest,
   gitlabUserRequest, gitlabProjectsRequest, gitlabCommitsRequest,
   gitlabSearchUserRequest, gitlabSearchProjectsRequest]

def githubRequests : List RequestConfig :=
  [githubUserRequest, githubReposRequest, githubCommitsRequest]

def gitlabRequests : List RequestConfig :=
  [gitlabUserRequest, gitlabProjectsRequest, gitlabCommitsRequest,
   gitlabSearchUserRequest, gitlabSearchProjectsRequest]

/-- Whether the config carries the client-identifier (User-Agent) header. -/
def RequestConfig.hasClientId (cfg : RequestConfig) : Bool :=
  cfg.headers.any (fun kv => kv.1 == "User-Agent")

/-! ## Market-mood classifier (src/frontend/src/components/Dashboard.jsx) -/

/-- One quote as held in the dashboard's `stocks` state. -/
structure Stock where
  symbol : String
  name : String
  price : ℚ
  change : ℚ
  changesPercentage : ℚ
  deriving DecidableEq

/-- `calculateMarketMood` from Dashboard.jsx: average of the
    `changesPercentage` fields mapped through a descending threshold ladder;
    a null/empty list yields the sleeping default. -/
def calculateMarketMood (stocksData : List Stock) : String :=
  if stocksData.length = 0 then "😴"
  else
    let avgPerformance :=
      stocksData.foldl (fun sum stock => sum + stock.changesPercentage) 0 /
        (stocksData.length : ℚ)
    if avgPerformance > 2 then "🚀"
    else if avgPerformance > 1 then "😎"
    else if avgPerformance > 0 then "🙂"
    else if avgPerformance > -1 then "😐"
    else if avgPerformance > -2 then "😟"
    else "🔥"

/-- The mean of the percent-change fields, as the spec describes it, for
    comparison with what `calculateMarketMood` computes. -/
def marketAverage (stocksData : List Stock) : ℚ :=
  (stocksData.map Stock.changesPercentage).sum / (stocksData.length : ℚ)

/-- The hard-coded quote list from Dashboard.jsx (both the normal path and the
    fallback path use this same array). -/
def mockStockData : List Stock :=
  [⟨"AAPL", "Apple Inc.", 227.76, 2.86, 1.27⟩,
   ⟨"MSFT", "Microsoft Corp.", 415.86, 5.32, 1.30⟩,
   ⟨"GOOGL", "Alphabet Inc.", 175.24, -1.15, -0.65⟩,
   ⟨"AMZN", "Amazon.com Inc.", 178.22, 3.45, 1.97⟩,
   ⟨"META", "Meta Platforms", 492.64, 8.72, 1.80⟩]

/-! ## Toy price predictor (`predictNextDay` in the StockChart component) -/

/-- A chart point.  The source's points also carry `date` and `volume`
    fields which the predictor copies verbatim and never reads; they are
    omitted here.  `confidence` is absent (`none`) on historical points. -/
structure PricePoint where
  name : String
  price : ℚ
  predicted : Bool := false
  confidence : Option String := none
  deriving DecidableEq

/-- `predictNextDay` from the StockChart component.  `rand` is the value
    returned by `Math.random()` (a number in `[0,1)`).  The source indexes
    `data[0]` when `data.length < 2`, which is `undefined` (here `none`) on
    an empty array; with two or more points it reads the last and
    second-to-last points, here obtained from the reversed list. -/
def predictNextDay (data : List PricePoint) (rand : ℚ) : Option PricePoint :=
  match data.reverse with
  | [] => none
  | [p] => some p
  | lastPoint :: previousPoint :: _ =>
      let recentTrend := lastPoint.price - previousPoint.price
      let predictedChange := recentTrend * (0.8 + rand * 0.4)
      some { lastPoint with
             name := "Predict",
             price := lastPoint.price + predictedChange,
             predicted := true,
             confidence := some (if |recentTrend| > 1 then "High" else "Medium") }

/-! ## Profile-card fetch logic with demo-data fallback

`fetchGitHubData` is the GitHubCard variant with commit drill-down;
`fetchGitLabData` is the GitLabCard variant with commit drill-down.  Each is
modelled as a transformer of the card's React state, parameterised by the
outcome of the awaited requests: `.ok` carries the parsed response data,
`.error` the thrown message.  The `try` block runs `setLoading(true)` and
`setError(null)` first; `finally` runs `setLoading(false)`; the net effect
on each field is recorded. -/

/-- React state of the GitHubCard component (search input omitted). -/
structure GitHubCardState where
  userData : Option Json
  repos : List Json
  repoCommits : List (String × List Json)
  expandedRepo : Option String
  loading : Bool
  error : Option String

/-- Initial `useState` values of the GitHubCard component. -/
def initialGitHubCardState : GitHubCardState :=
  ⟨none, [], [], none, true, none⟩

/-- `fetchGitHubData`: on success stores the user object and repo list and
    resets the drill-down state; on failure it only sets the error banner
    text — no demo data is substituted, the data fields keep their previous
    values. -/
def fetchGitHubData (s : GitHubCardState)
    (outcome : Except String (Json × List Json)) : GitHubCardState :=
  match outcome with
  | .ok (user, reposData) =>
      { s with userData := some user, repos := reposData,
               repoCommits := [], expandedRepo := none,
               loading := false, error := none }
  | .error _ =>
      { s with
        error := some "Failed to fetch GitHub data. Please check the username and try again.",
        loading := false }

/-- React state of the GitLabCard component (search input omitted). -/
structure GitLabCardState where
  userData : Option Json
  projects : List Json
  projectCommits : List (ℚ × List Json)
  expandedProject : Option ℚ
  loading : Bool
  error : Option String

/-- Initial `useState` values of the GitLabCard component. -/
def initialGitLabCardState : GitLabCardState :=
  ⟨none, [], [], none, true, none⟩

/-- The hard-coded fallback user object of the GitLabCard `catch` block;
    its `username` field is the username that was searched. -/
def demoGitLabUser (gitlabUsername : String) : Json :=
  .obj [("username", .str gitlabUsername),
        ("name", .str "Lukhanyo N"),
        ("avatar_url", .str "https://gitlab.com/uploads/-/system/user/avatar/placeholder.png"),
        ("id", .num 123456)]

/-- The hard-coded fallback project list of the GitLabCard `catch` block. -/
def demoGitLabProjects : List Json :=
  [.obj [("id", .num 1),
         ("name", .str "intellisignal-dashboard"),
         ("description", .str "Full-stack analytics dashboard"),
         ("star_count", .num 8),
         ("forks_count", .num 2),
         ("web_url", .str "https://gitlab.com/lukhanyoN/intellisignal-dashboard"),
         ("last_activity_at", .str "2024-01-15T10:30:00Z")],
   .obj [("id", .num 2),
         ("name", .str "devops-pipeline"),
         ("description", .str "CI/CD automation setup"),
         ("star_count", .num 5),
         ("forks_count", .num 1),
         ("web_url", .str "https://gitlab.com/lukhanyoN/devops-pipeline"),
         ("last_activity_at", .str "2024-01-10T14:20:00Z")]]

/-- `fetchGitLabData`: the success payload is the backend search response
    (`user` object and `projects` list); on failure the catch block sets a
    warning banner and substitutes the fixed demo user and demo projects. -/
def fetchGitLabData (gitlabUsername : String) (s : GitLabCardState)
    (outcome : Except String (Json × List Json)) : GitLabCardState :=
  match outcome with
  | .ok (user, projectsData) =>
      { s with userData := some user, projects := projectsData,
               projectCommits := [], expandedProject := none,
               loading := false, error := none }
  | .error _ =>
      { s with
        error := some "GitLab data temporarily unavailable - using demo data",
        userData := some (demoGitLabUser gitlabUsername),
        projects := demoGitLabProjects,
        loading := false }

/-! ## Dashboard refresh timer (Dashboard.jsx `useEffect`)

A small semantics of the browser interval timers: a state holds the set of
active intervals (id, period in ms); `setInterval` registers a fresh id and
`clearInterval` removes one; a callback of interval `id` can fire only while
`(id, _)` is active. -/

/-- The active-interval table of the browser event loop. -/
structure TimerState where
  nextId : Nat
  active : List (Nat × Nat)
  deriving DecidableEq

/-- `setInterval(cb, periodMs)`: registers a fresh interval id. -/
def setInterval (s : TimerState) (periodMs : Nat) : Nat × TimerState :=
  (s.nextId, ⟨s.nextId + 1, s.active ++ [(s.nextId, periodMs)]⟩)

/-- `clearInterval(intervalId)`: removes every registration of that id. -/
def clearInterval (s : TimerState) (intervalId : Nat) : TimerState :=
  { s with active := s.active.filter (fun entry => entry.1 != intervalId) }

/-- The mount effect of Dashboard.jsx:
    `const intervalId = setInterval(fetchDashboardData, 60000)`. -/
def mountDashboard (s : TimerState) : Nat × TimerState :=
  setInterval s 60000

/-- The teardown handler of Dashboard.jsx: `() => clearInterval(intervalId)`. -/
def unmountDashboard (intervalId : Nat) (s : TimerState) : TimerState :=
  clearInterval s intervalId

/-- A timer callback for `intervalId` can fire in state `s` only when the id
    is still registered. -/
def canFire (s : TimerState) (intervalId : Nat) : Bool :=
  s.active.any (fun entry => entry.1 == intervalId)

/-! ## Double-precision model of the market-mood arithmetic

The JS engine evaluates `reduce((sum, stock) => sum + stock.changesPercentage, 0)
/ stocksData.length` in IEEE-754 binary64 ("double") arithmetic: each addition
of the reduce and the final division produce the exact result rounded to a
53-bit significand, round to nearest with ties to even.  `roundB64` is that
rounding for results in the binary64 normal finite range
(`2 ^ (-1022) ≤ |x| < 2 ^ 1024`), which covers every value arising in this
development; `calculateMarketMoodFP` is the classifier under this arithmetic.
The exact-rational `calculateMarketMood` above is the idealized model: the two
agree when every intermediate result is exactly representable, but double
addition rounds order-dependently, so they can differ under reordering. -/

/-- Round a rational to the nearest integer, ties going to the even integer —
    the tie rule of IEEE-754 round-to-nearest-even. -/
def roundHalfEven (m : ℚ) : ℤ :=
  if m - ⌊m⌋ < 1 / 2 then ⌊m⌋
  else if 1 / 2 < m - ⌊m⌋ then ⌊m⌋ + 1
  else if ⌊m⌋ % 2 = 0 then ⌊m⌋ else ⌊m⌋ + 1

/-- Round an exact rational to the nearest IEEE-754 binary64 value: scale into
    `[2 ^ 52, 2 ^ 53)`, round the significand to an integer with ties to even,
    and scale back.  Exact for results in the normal finite range (no
    subnormal or overflow handling); zero maps to zero and negatives round
    symmetrically, as IEEE-754 prescribes. -/
def roundB64 (q : ℚ) : ℚ :=
  if q = 0 then 0
  else if q < 0 then
    -((roundHalfEven (|q| / 2 ^ (Int.log 2 |q| - 52)) : ℚ) * 2 ^ (Int.log 2 |q| - 52))
  else
    (roundHalfEven (q / 2 ^ (Int.log 2 q - 52)) : ℚ) * 2 ^ (Int.log 2 q - 52)

/-- Double addition: IEEE-754 requires the correctly rounded exact sum. -/
def fadd (x y : ℚ) : ℚ := roundB64 (x + y)

/-- Double division: IEEE-754 requires the correctly rounded exact quotient. -/
def fdiv (x y : ℚ) : ℚ := roundB64 (x / y)

/-- The descending threshold ladder of `calculateMarketMood`, factored out.
    The thresholds and the integer length are exactly representable, and
    double comparisons are exact, so the ladder itself involves no rounding. -/
def moodLadder (avgPerformance : ℚ) : String :=
  if avgPerformance > 2 then "🚀"
  else if avgPerformance > 1 then "😎"
  else if avgPerformance > 0 then "🙂"
  else if avgPerformance > -1 then "😐"
  else if avgPerformance > -2 then "😟"
  else "🔥"

/-- `calculateMarketMood` with the double arithmetic the JS engine performs:
    the reduce rounds after every addition and the division rounds once. -/
def calculateMarketMoodFP (stocksData : List Stock) : String :=
  if stocksData.length = 0 then "😴"
  else
    moodLadder
      (fdiv (stocksData.foldl (fun sum stock => fadd sum stock.changesPercentage) 0)
        (stocksData.length : ℚ))

/-- A quote whose percent change is the exactly representable double `1e16`. -/
def cexStockP : Stock := ⟨"BIGP", "Big positive", 0, 0, 10 ^ 16⟩

/-- A quote whose percent change is the double `1`. -/
def cexStockOne : Stock := ⟨"ONE", "One percent", 0, 0, 1⟩

/-- A quote whose percent change is the exactly representable double `-1e16`. -/
def cexStockN : Stock := ⟨"BIGN", "Big negative", 0, 0, -(10 ^ 16)⟩

/-! ## Theorems -/

/-- Folding the percent changes from an accumulator equals the accumulator
    plus the sum of the mapped list. -/
theorem foldl_changes_sum (l : List Stock) (a : ℚ) :
    l.foldl (fun sum stock => sum + stock.changesPercentage) a
      = a + (l.map Stock.changesPercentage).sum := by
  induction l generalizing a with
  | nil => simp
  | cons x xs ih => simp [List.foldl_cons, ih]; ring

/-- C1 (counterexample): on the GitHub profile card, a failed fetch from the
    initial state leaves `userData` empty (`none`) — the displayed state is
    NOT populated with a demo dataset, only the error banner is set. -/
theorem github_card_failure_leaves_profile_empty :
    (fetchGitHubData initialGitHubCardState (.error "Network Error")).userData = none ∧
    (fetchGitHubData initialGitHubCardState (.error "Network Error")).error
      = some "Failed to fetch GitHub data. Please check the username and try again." :=
  ⟨rfl, rfl⟩

/-- C1 (amended): on a fetch failure the GitLab card sets a non-fatal warning
    and substitutes the fixed demo user and demo project list, while the
    GitHub card only sets a warning string and leaves its data fields
    unchanged (hence empty on the first load); both cards leave loading. -/
theorem card_fetch_failure_fallback (username msg : String)
    (sL : GitLabCardState) (sH : GitHubCardState) :
    ((fetchGitLabData username sL (.error msg)).userData
        = some (demoGitLabUser username) ∧
     (fetchGitLabData username sL (.error msg)).projects = demoGitLabProjects ∧
     (fetchGitLabData username sL (.error msg)).error
        = some "GitLab data temporarily unavailable - using demo data" ∧
     (fetchGitLabData username sL (.error msg)).loading = false) ∧
    ((fetchGitHubData sH (.error msg)).error
        = some "Failed to fetch GitHub data. Please check the username and try again." ∧
     (fetchGitHubData sH (.error msg)).userData = sH.userData ∧
     (fetchGitHubData sH (.error msg)).repos = sH.repos ∧
     (fetchGitHubData sH (.error msg)).loading = false) :=
  ⟨⟨rfl, rfl, rfl, rfl⟩, ⟨rfl, rfl, rfl, rfl⟩⟩

/-- C2 (counterexample): the GitLab user proxy, on upstream success with the
    non-empty payload `[{id: 1}]`, answers 200 but with a body that is NOT
    identical to the upstream payload — the list is unwrapped to its first
    element. -/
theorem gitlab_user_success_body_differs :
    (gitlabUserHandler "alice" (.ok [Json.obj [("id", Json.num 1)]])).status = 200 ∧
    (gitlabUserHandler "alice" (.ok [Json.obj [("id", Json.num 1)]])).body
      ≠ Json.arr [Json.obj [("id", Json.num 1)]] := by
  refine ⟨rfl, ?_⟩
  intro h
  exact Json.noConfusion h

/-- C2 (amended): on upstream success with a non-empty payload every proxy
    endpoint answers 200; the GitHub endpoints and the GitLab
    projects/commits endpoints send the upstream payload unchanged, but the
    GitLab user endpoint sends only the first element of the upstream list,
    and the GitLab search endpoint wraps the results in a
    `{user, projects, success}` envelope. -/
theorem proxy_success_responses (username : String) (payload : Json)
    (elems : List Json) (u : Json) (us ps : List Json) :
    githubUserHandler (.ok payload) = ⟨200, payload⟩ ∧
    githubReposHandler (.ok elems) = ⟨200, .arr elems⟩ ∧
    githubCommitsHandler (.ok elems) = ⟨200, .arr elems⟩ ∧
    gitlabProjectsHandler (.ok elems) = ⟨200, .arr elems⟩ ∧
    gitlabCommitsHandler (.ok elems) = ⟨200, .arr elems⟩ ∧
    gitlabUserHandler username (.ok (u :: us)) = ⟨200, u⟩ ∧
    gitlabSearchHandler username (.ok (u :: us)) (.ok ps)
      = (⟨200, .obj [("user", u), ("projects", .arr ps), ("success", .bool true)]⟩, true) :=
  ⟨rfl, rfl, rfl, rfl, rfl, rfl, rfl⟩

/-- C3: when the upstream user lookup of the GitLab search composite returns
    an empty list, the endpoint answers 404 with a `{message, suggestion}`
    body, and the dependent projects request is never issued (the flag is
    `false` and the response does not depend on the projects outcome). -/
theorem gitlab_search_empty_user_404 (username : String)
    (projectsUpstream : Except String (List Json)) :
    gitlabSearchHandler username (.ok []) projectsUpstream
      = (⟨404, .obj [("message", .str ("GitLab user \"" ++ username ++ "\" not found")),
                     ("suggestion", .str "Check the username or try a different GitLab username")]⟩,
         false) ∧
    (gitlabSearchHandler username (.ok []) projectsUpstream).1.body.hasKey "message" = true ∧
    (gitlabSearchHandler username (.ok []) projectsUpstream).1.body.hasKey "suggestion" = true ∧
    (gitlabSearchHandler username (.ok []) projectsUpstream).2 = false :=
  ⟨rfl, rfl, rfl, rfl⟩

/-- C4: for a non-empty quote list the market-mood classifier returns the
    label given by the descending ladder over the arithmetic mean of the
    percent changes; the empty list gets the seventh default label; and on
    the hard-coded quotes (percent changes 1.27, 1.30, -0.65, 1.97, 1.80,
    mean 569/500 = 1.138) it selects the "average > 1" bucket label 😎, not
    the "> 2" or "> 0" bucket labels. -/
theorem calculateMarketMood_ladder (stocks : List Stock) (h : stocks ≠ []) :
    (calculateMarketMood stocks =
       if marketAverage stocks > 2 then "🚀"
       else if marketAverage stocks > 1 then "😎"
       else if marketAverage stocks > 0 then "🙂"
       else if marketAverage stocks > -1 then "😐"
       else if marketAverage stocks > -2 then "😟"
       else "🔥") ∧
    calculateMarketMood [] = "😴" ∧
    marketAverage mockStockData = 569 / 500 ∧
    calculateMarketMood mockStockData = "😎" ∧
    calculateMarketMood mockStockData ≠ "🚀" ∧
    calculateMarketMood mockStockData ≠ "🙂" := by
  have hlen : stocks.length ≠ 0 := by simpa using h
  refine ⟨?_, rfl, ?_, ?_, ?_, ?_⟩
  · simp [calculateMarketMood, marketAverage, hlen, foldl_changes_sum]
  · norm_num [marketAverage, mockStockData]
  · norm_num [calculateMarketMood, mockStockData]
  · norm_num [calculateMarketMood, mockStockData]
    decide
  · norm_num [calculateMarketMood, mockStockData]
    decide

/-- C4 (witness): the ladder theorem applied to the hard-coded quote list. -/
theorem calculateMarketMood_ladder_witness :
    mockStockData ≠ [] ∧ calculateMarketMood mockStockData = "😎" :=
  ⟨by simp [mockStockData], (calculateMarketMood_ladder mockStockData (by simp [mockStockData])).2.2.2.1⟩

/-- C5: with at least two points and `rand` the value of Math.random() in
    [0,1), the predictor returns one synthetic point priced
    `last + (last - prev) * (0.8 + rand * 0.4)` where the factor lies in
    [0.8, 1.2], with confidence High exactly when `|last - prev| > 1` and
    Medium otherwise; a single point is returned unchanged; and on prices
    [100, 102] the predicted price lies in [103.6, 104.4] with confidence
    High. -/
theorem predictNextDay_spec (data rest : List PricePoint)
    (lastPoint previousPoint p : PricePoint) (rand : ℚ)
    (hdata : data.reverse = lastPoint :: previousPoint :: rest)
    (h0 : 0 ≤ rand) (h1 : rand < 1) :
    (predictNextDay data rand = some
       { lastPoint with
         name := "Predict",
         price := lastPoint.price
           + (lastPoint.price - previousPoint.price) * (0.8 + rand * 0.4),
         predicted := true,
         confidence := some (if |lastPoint.price - previousPoint.price| > 1
                             then "High" else "Medium") }) ∧
    ((0.8 : ℚ) ≤ 0.8 + rand * 0.4 ∧ (0.8 : ℚ) + rand * 0.4 ≤ 1.2) ∧
    predictNextDay [p] rand = some p ∧
    (predictNextDay [⟨"Mon", 100, false, none⟩, ⟨"Tue", 102, false, none⟩] rand
       = some ⟨"Predict", 102 + (102 - 100) * (0.8 + rand * 0.4), true, some "High"⟩ ∧
     (103.6 : ℚ) ≤ 102 + (102 - 100) * (0.8 + rand * 0.4) ∧
     (102 : ℚ) + (102 - 100) * (0.8 + rand * 0.4) ≤ 104.4) := by
  refine ⟨?_, ⟨by linarith, by linarith⟩, rfl, ?_, by linarith, by linarith⟩
  · simp [predictNextDay, hdata]
  · simp [predictNextDay]
    norm_num [abs]

/-- C5 (witness): the predictor theorem applied at prices [100, 102] with
    rand = 1/2; the extracted conjunct is the unchanged single point. -/
theorem predictNextDay_spec_witness :
    predictNextDay [(⟨"Wed", 7, false, none⟩ : PricePoint)] (1 / 2)
      = some ⟨"Wed", 7, false, none⟩ :=
  (predictNextDay_spec
      [⟨"Mon", 100, false, none⟩, ⟨"Tue", 102, false, none⟩] []
      ⟨"Tue", 102, false, none⟩ ⟨"Mon", 100, false, none⟩
      ⟨"Wed", 7, false, none⟩ (1 / 2)
      rfl (by norm_num) (by norm_num)).2.2.1

/-- C6 (counterexample): the GitLab user proxy's outbound request is
    configured with the 10 s timeout but carries NO client identifier
    (User-Agent) header; the search composite's requests carry no headers at
    all. -/
theorem gitlab_request_lacks_client_id :
    gitlabUserRequest.timeout = some 10000 ∧
    gitlabUserRequest.hasClientId = false ∧
    gitlabSearchUserRequest.headers = [] ∧
    gitlabSearchProjectsRequest.headers = [] := by
  decide

/-- C6 (amended): every outbound upstream request of the backend is
    configured with a 10 000 ms timeout, but only the three GitHub requests
    carry the descriptive client identifier header
    `User-Agent: IntelliSignal-Dashboard`; none of the five GitLab requests
    carries a client identifier header. -/
theorem backend_request_configs :
    backendRequests.all (fun cfg => cfg.timeout == some 10000) = true ∧
    githubRequests.all
      (fun cfg => cfg.headers.contains ("User-Agent", "IntelliSignal-Dashboard")) = true ∧
    gitlabRequests.all (fun cfg => cfg.hasClientId == false) = true := by
  decide

/-- C7: on every upstream failure (axios rejection: timeout, network error,
    or upstream 5xx) each proxy endpoint answers 500 with a JSON body
    containing a `message` field — including both failure points of the
    search composite. -/
theorem proxy_upstream_failure_500_message (username msg : String)
    (u : Json) (us : List Json) :
    ((githubUserHandler (.error msg)).status = 500 ∧
     (githubUserHandler (.error msg)).body.hasKey "message" = true) ∧
    ((githubReposHandler (.error msg)).status = 500 ∧
     (githubReposHandler (.error msg)).body.hasKey "message" = true) ∧
    ((githubCommitsHandler (.error msg)).status = 500 ∧
     (githubCommitsHandler (.error msg)).body.hasKey "message" = true) ∧
    ((gitlabUserHandler username (.error msg)).status = 500 ∧
     (gitlabUserHandler username (.error msg)).body.hasKey "message" = true) ∧
    ((gitlabProjectsHandler (.error msg)).status = 500 ∧
     (gitlabProjectsHandler (.error msg)).body.hasKey "message" = true) ∧
    ((gitlabCommitsHandler (.error msg)).status = 500 ∧
     (gitlabCommitsHandler (.error msg)).body.hasKey "message" = true) ∧
    ((gitlabSearchHandler username (.error msg) (.ok [])).1.status = 500 ∧
     (gitlabSearchHandler username (.error msg) (.ok [])).1.body.hasKey "message" = true) ∧
    ((gitlabSearchHandler username (.ok (u :: us)) (.error msg)).1.status = 500 ∧
     (gitlabSearchHandler username (.ok (u :: us)) (.error msg)).1.body.hasKey "message" = true) :=
  ⟨⟨rfl, rfl⟩, ⟨rfl, rfl⟩, ⟨rfl, rfl⟩, ⟨rfl, rfl⟩,
   ⟨rfl, rfl⟩, ⟨rfl, rfl⟩, ⟨rfl, rfl⟩, ⟨rfl, rfl⟩⟩

/-- C8: mounting the dashboard registers one interval with period 60 000 ms
    whose callback can fire while mounted; after the teardown handler runs,
    that interval is no longer registered, so its callback can never fire
    again. -/
theorem dashboard_interval_spec (s : TimerState) :
    ((mountDashboard s).1, 60000) ∈ (mountDashboard s).2.active ∧
    canFire (mountDashboard s).2 (mountDashboard s).1 = true ∧
    canFire (unmountDashboard (mountDashboard s).1 (mountDashboard s).2)
        (mountDashboard s).1 = false := by
  refine ⟨?_, ?_, ?_⟩
  · simp [mountDashboard, setInterval]
  · simp [mountDashboard, setInterval, canFire]
  · simp [mountDashboard, setInterval, unmountDashboard, clearInterval, canFire,
          List.any_eq_true]

/-- Characterisation of `Int.log 2` from a bracketing pair of powers. -/
theorem int_log_eq {q : ℚ} {L : ℤ} (hq : 0 < q)
    (h1 : (2 : ℚ) ^ L ≤ q) (h2 : q < (2 : ℚ) ^ (L + 1)) :
    Int.log 2 q = L := by
  have hb : 1 < 2 := one_lt_two
  have hL : L ≤ Int.log 2 q := by
    rw [← Int.zpow_le_iff_le_log hb hq]
    exact_mod_cast h1
  have hU : Int.log 2 q < L + 1 := by
    rw [← Int.lt_zpow_iff_log_lt hb hq]
    exact_mod_cast h2
  omega

/-- `roundHalfEven` at a value whose fractional part is below one half. -/
theorem rhe_eq_lo {m : ℚ} {k : ℤ} (h1 : (k : ℚ) ≤ m) (h2 : m < k + 1)
    (h3 : m - k < 1 / 2) : roundHalfEven m = k := by
  have hk : ⌊m⌋ = k := Int.floor_eq_iff.mpr ⟨h1, h2⟩
  simp only [roundHalfEven, hk]
  rw [if_pos h3]

/-- `roundHalfEven` at an exact tie whose floor is even. -/
theorem rhe_eq_tie_even {m : ℚ} {k : ℤ} (h1 : (k : ℚ) ≤ m) (h2 : m < k + 1)
    (h3 : m - k = 1 / 2) (h4 : k % 2 = 0) : roundHalfEven m = k := by
  have hk : ⌊m⌋ = k := Int.floor_eq_iff.mpr ⟨h1, h2⟩
  simp only [roundHalfEven, hk]
  rw [if_neg (by rw [h3]; exact lt_irrefl _),
      if_neg (by rw [h3]; exact lt_irrefl _), if_pos h4]

/-- Evaluation rule for `roundB64` on a positive rational, given the
    bracketing binade `[2 ^ L, 2 ^ (L + 1))` and the rounded significand. -/
theorem roundB64_pos_eq {q : ℚ} {L n : ℤ} (hq : 0 < q)
    (h1 : (2 : ℚ) ^ L ≤ q) (h2 : q < (2 : ℚ) ^ (L + 1))
    (hn : roundHalfEven (q / 2 ^ (L - 52)) = n) :
    roundB64 q = (n : ℚ) * 2 ^ (L - 52) := by
  have hlog : Int.log 2 q = L := int_log_eq hq h1 h2
  simp only [roundB64, hlog]
  rw [if_neg hq.ne', if_neg (not_lt.mpr hq.le), hn]

/-- Zero is a double and rounds to itself. -/
theorem roundB64_zero : roundB64 0 = 0 := by simp [roundB64]

/-- `1e16 = 2 ^ 16 * 5 ^ 16` has a 38-bit significand, hence is an exact
    double and rounds to itself. -/
theorem roundB64_e16 : roundB64 (10 ^ 16 : ℚ) = 10 ^ 16 := by
  have h : roundB64 (10 ^ 16 : ℚ)
      = ((5000000000000000 : ℤ) : ℚ) * 2 ^ ((53 : ℤ) - 52) :=
    roundB64_pos_eq (by norm_num) (by norm_num) (by norm_num)
      (rhe_eq_lo (by norm_num) (by norm_num) (by norm_num))
  rw [h]; norm_num

/-- `1e16 + 1` lies exactly halfway between the neighbouring doubles `1e16`
    and `1e16 + 2`; the tie goes to the even significand, i.e. to `1e16`. -/
theorem roundB64_e16_add_one : roundB64 ((10 : ℚ) ^ 16 + 1) = 10 ^ 16 := by
  have h : roundB64 ((10 : ℚ) ^ 16 + 1)
      = ((5000000000000000 : ℤ) : ℚ) * 2 ^ ((53 : ℤ) - 52) :=
    roundB64_pos_eq (by norm_num) (by norm_num) (by norm_num)
      (rhe_eq_tie_even (by norm_num) (by norm_num) (by norm_num) (by norm_num))
  rw [h]; norm_num

/-- One is an exact double. -/
theorem roundB64_one : roundB64 (1 : ℚ) = 1 := by
  have h : roundB64 (1 : ℚ)
      = ((4503599627370496 : ℤ) : ℚ) * 2 ^ ((0 : ℤ) - 52) :=
    roundB64_pos_eq (by norm_num) (by norm_num) (by norm_num)
      (rhe_eq_lo (by norm_num) (by norm_num) (by norm_num))
  rw [h]; norm_num

/-- One third rounds down to the double `6004799503160661 * 2 ^ (-54)`. -/
theorem roundB64_third : roundB64 ((1 : ℚ) / 3) = 6004799503160661 / 2 ^ 54 := by
  have h : roundB64 ((1 : ℚ) / 3)
      = ((6004799503160661 : ℤ) : ℚ) * 2 ^ ((-2 : ℤ) - 52) :=
    roundB64_pos_eq (by norm_num) (by norm_num) (by norm_num)
      (rhe_eq_lo (by norm_num) (by norm_num) (by norm_num))
  rw [h]; norm_num

/-- The reduce over a three-quote list, unfolded. -/
theorem foldl_changes_three (a b c : Stock) :
    List.foldl (fun sum stock => fadd sum stock.changesPercentage) 0 [a, b, c]
      = fadd (fadd (fadd 0 a.changesPercentage) b.changesPercentage)
          c.changesPercentage := rfl

/-- `calculateMarketMoodFP` through the value of its rounded average. -/
theorem moodFP_eval (l : List Stock) (v : ℚ) (hl : l.length ≠ 0)
    (hv : fdiv (l.foldl (fun sum stock => fadd sum stock.changesPercentage) 0)
        (l.length : ℚ) = v) :
    calculateMarketMoodFP l = moodLadder v := by
  unfold calculateMarketMoodFP
  rw [if_neg hl, hv]

/-- In the order `[1e16, 1, -1e16]` the double sum is `0` (the `+1` is
    absorbed: `1e16 + 1` rounds back to `1e16`), so the average is `0` and
    the classifier lands in the `> -1` bucket. -/
theorem moodFP_absorbed :
    calculateMarketMoodFP [cexStockP, cexStockOne, cexStockN] = "😐" := by
  have s1 : fadd 0 (10 ^ 16 : ℚ) = 10 ^ 16 := by
    rw [fadd, zero_add, roundB64_e16]
  have s2 : fadd (10 ^ 16 : ℚ) 1 = 10 ^ 16 := by
    rw [fadd, roundB64_e16_add_one]
  have s3 : fadd (10 ^ 16 : ℚ) (-(10 ^ 16)) = 0 := by
    rw [fadd, add_neg_cancel, roundB64_zero]
  have hlen : (([cexStockP, cexStockOne, cexStockN] : List Stock).length : ℚ) = 3 := by
    norm_num
  have hv : fdiv ([cexStockP, cexStockOne, cexStockN].foldl
      (fun sum stock => fadd sum stock.changesPercentage) 0)
      (([cexStockP, cexStockOne, cexStockN] : List Stock).length : ℚ) = 0 := by
    rw [foldl_changes_three,
        show cexStockP.changesPercentage = 10 ^ 16 from rfl,
        show cexStockOne.changesPercentage = 1 from rfl,
        show cexStockN.changesPercentage = -(10 ^ 16) from rfl,
        s1, s2, s3, hlen, fdiv, zero_div, roundB64_zero]
  rw [moodFP_eval _ 0 (by norm_num) hv]
  norm_num [moodLadder]

/-- In the order `[1e16, -1e16, 1]` the big terms cancel first, the double
    sum is `1`, the average rounds to a double just above `1/3`, and the
    classifier lands in the `> 0` bucket. -/
theorem moodFP_cancelled :
    calculateMarketMoodFP [cexStockP, cexStockN, cexStockOne] = "🙂" := by
  have s1 : fadd 0 (10 ^ 16 : ℚ) = 10 ^ 16 := by
    rw [fadd, zero_add, roundB64_e16]
  have s2 : fadd (10 ^ 16 : ℚ) (-(10 ^ 16)) = 0 := by
    rw [fadd, add_neg_cancel, roundB64_zero]
  have s3 : fadd 0 (1 : ℚ) = 1 := by
    rw [fadd, zero_add, roundB64_one]
  have hlen : (([cexStockP, cexStockN, cexStockOne] : List Stock).length : ℚ) = 3 := by
    norm_num
  have hv : fdiv ([cexStockP, cexStockN, cexStockOne].foldl
      (fun sum stock => fadd sum stock.changesPercentage) 0)
      (([cexStockP, cexStockN, cexStockOne] : List Stock).length : ℚ)
      = 6004799503160661 / 2 ^ 54 := by
    rw [foldl_changes_three,
        show cexStockP.changesPercentage = 10 ^ 16 from rfl,
        show cexStockN.changesPercentage = -(10 ^ 16) from rfl,
        show cexStockOne.changesPercentage = 1 from rfl,
        s1, s2, s3, hlen, fdiv, roundB64_third]
  rw [moodFP_eval _ _ (by norm_num) hv]
  norm_num [moodLadder]

/-- C9 (counterexample): under the IEEE-754 double arithmetic the program
    actually performs, the classifier is NOT permutation-invariant: the
    reorderings `[1e16, 1, -1e16]` and `[1e16, -1e16, 1]` of the same quote
    multiset receive different labels, because the double sum rounds
    order-dependently (the `+1` is absorbed in the first order and survives
    in the second). -/
theorem calculateMarketMoodFP_not_perm_invariant :
    ([cexStockP, cexStockOne, cexStockN]).Perm [cexStockP, cexStockN, cexStockOne] ∧
    calculateMarketMoodFP [cexStockP, cexStockOne, cexStockN]
      ≠ calculateMarketMoodFP [cexStockP, cexStockN, cexStockOne] := by
  constructor
  · exact List.Perm.cons _ (List.Perm.swap _ _ _)
  · rw [moodFP_absorbed, moodFP_cancelled]
    decide

/-- C9 (amended): in exact arithmetic the market-mood classifier is invariant
    under permutation of the quote list — it depends only on the multiset of
    percent changes through their exact mean; the program's IEEE-754 double
    summation rounds order-dependently, so the invariance can fail for
    reorderings whose intermediate sums round differently. -/
theorem calculateMarketMood_perm (l l' : List Stock) (h : l.Perm l') :
    calculateMarketMood l = calculateMarketMood l' := by
  have hlen := h.length_eq
  have hsum : (l.map Stock.changesPercentage).sum
      = (l'.map Stock.changesPercentage).sum :=
    (h.map Stock.changesPercentage).sum_eq
  simp only [calculateMarketMood, foldl_changes_sum, hlen, hsum]

/-- C9 (witness): permutation invariance applied to a concrete swap of the
    first two hard-coded quotes. -/
theorem calculateMarketMood_perm_witness :
    calculateMarketMood
        [⟨"AAPL", "Apple Inc.", 227.76, 2.86, 1.27⟩,
         ⟨"MSFT", "Microsoft Corp.", 415.86, 5.32, 1.30⟩]
      = calculateMarketMood
        [⟨"MSFT", "Microsoft Corp.", 415.86, 5.32, 1.30⟩,
         ⟨"AAPL", "Apple Inc.", 227.76, 2.86, 1.27⟩] :=
  calculateMarketMood_perm _ _
    (List.Perm.swap (⟨"MSFT", "Microsoft Corp.", 415.86, 5.32, 1.30⟩ : Stock)
      (⟨"AAPL", "Apple Inc.", 227.76, 2.86, 1.27⟩ : Stock) [])

/-- C10: on an empty input the predictor's fewer-than-two-points branch reads
    the first element of an empty array and therefore yields no point at all
    (`undefined` / `none`), for every value of the random factor. -/
theorem predictNextDay_empty (rand : ℚ) : predictNextDay [] rand = none := rfl

end IntelliSignal
